import Mathlib

/-!
Verification of the pan-tilt servo-control simulation (`src/main.cpp`).

The mechanism model (`PanTiltMechanism`), the sinusoidal speed profile,
the per-tick capture scheduler, the frame transcoder (row reversal) and
the main animation loop are embedded as Lean definitions over the reals,
and the specification's testable properties are settled against them.
Float arithmetic in the source is modelled by exact real arithmetic.
-/

namespace ServoControl

open Real

/-- `std::clamp(v, lo, hi)` as used in `PanTiltMechanism::update`:
`v < lo ? lo : (hi < v ? hi : v)`. -/
noncomputable def stdClamp (v lo hi : ℝ) : ℝ :=
  if v < lo then lo else if hi < v then hi else v

/-- `threepp::math::degToRad`: converts degrees to radians, `deg * (pi / 180)`. -/
noncomputable def degToRad (deg : ℝ) : ℝ := deg * (π / 180)

/-- `threepp::math::TWO_PI`. -/
noncomputable def TWO_PI : ℝ := 2 * π

/-- The private field `float maxSpeed_{0.5}` of `PanTiltMechanism`:
initialised to `0.5` and never written afterwards (no setter exists). -/
noncomputable def maxSpeed : ℝ := 0.5

/-- Kinematic state of `PanTiltMechanism`: the pan angle
(`children.front()->rotation.y`), the tilt angle
(`getObjectByName("upper")->rotation.z`) and the two stored commanded
speeds `panSpeed_`, `tiltSpeed_`. -/
structure MechState where
  panAngle : ℝ
  tiltAngle : ℝ
  panSpeed : ℝ
  tiltSpeed : ℝ

/-- State right after `PanTiltMechanism`'s constructor: both rotations
are at their default `0` and the speed fields are initialised to `0`. -/
noncomputable def initMech : MechState := ⟨0, 0, 0, 0⟩

/-- `PanTiltMechanism::setTiltSpeed(float rad)`: stores the raw value. -/
def MechState.setTiltSpeed (st : MechState) (rad : ℝ) : MechState :=
  { st with tiltSpeed := rad }

/-- `PanTiltMechanism::setPanSpeed(float rad)`: stores the raw value. -/
def MechState.setPanSpeed (st : MechState) (rad : ℝ) : MechState :=
  { st with panSpeed := rad }

/-- `PanTiltMechanism::update(float delta)`: adds
`std::clamp(speed, -maxSpeed_, maxSpeed_) * delta` to each axis angle. -/
noncomputable def MechState.update (st : MechState) (delta : ℝ) : MechState :=
  { st with
    tiltAngle := st.tiltAngle + stdClamp st.tiltSpeed (-maxSpeed) maxSpeed * delta,
    panAngle := st.panAngle + stdClamp st.panSpeed (-maxSpeed) maxSpeed * delta }

/-- `N` repeated `update(dt)` calls with the same `dt`. -/
noncomputable def updateN (st : MechState) (dt : ℝ) : ℕ → MechState
  | 0 => st
  | n + 1 => (updateN st dt n).update dt

/-- `constexpr float amplitude = 90` in the animate lambda (degrees). -/
noncomputable def amplitude : ℝ := 90

/-- `constexpr float frequency = 0.05` in the animate lambda (Hz). -/
noncomputable def frequency : ℝ := 0.05

/-- The raw commanded speed computed each tick (degrees per second):
`TWO_PI * frequency * amplitude * cos(TWO_PI * frequency * t)`. -/
noncomputable def rawSpeed (t : ℝ) : ℝ :=
  TWO_PI * frequency * amplitude * Real.cos (TWO_PI * frequency * t)

/-- The value handed to `setPanSpeed`: `math::degToRad(speed)` (rad/s). -/
noncomputable def commandedPanSpeed (t : ℝ) : ℝ := degToRad (rawSpeed t)

/-- The capture decision `const bool renderVirtual = tick % 2 == 0`. -/
def shouldCaptureVirtual (tick : ℕ) : Bool := tick % 2 == 0

/-- One BGR pixel of the `CV_8UC3` buffer. -/
abbrev Pixel := ℕ × ℕ × ℕ

/-- `cv::flip(image, image, 0)`: reverses the order of the rows of the
frame; the rows themselves are untouched. -/
def transcodeFrame (frame : List (List Pixel)) : List (List Pixel) :=
  frame.reverse

/-- Observable render actions of one animate iteration, each recording
the visibility of the `CameraHelper` frustum geometry at that moment. -/
inductive RenderEvent where
  | renderVirtual (helperVisible : Bool)
  | renderMain (helperVisible : Bool)

/-- State threaded through the animate loop: the mechanism, the
`cameraHelper->visible` flag and the `tick` counter. -/
structure LoopState where
  mech : MechState
  helperVisible : Bool
  tick : ℕ

/-- Loop state on entry to the first animate call: fresh mechanism,
helper visible (threepp default), `tick = 0`. -/
noncomputable def initLoop : LoopState := ⟨initMech, true, 0⟩

/-- One iteration of the `canvas.animate` lambda, given the elapsed time
`dt` returned by `clock.getDelta()` and the elapsed time `t` read from
`clock.elapsedTime`.  Mirrors the source order: decide `renderVirtual`
from the current tick, call `update(dt)`, then compute the speed and
call `setPanSpeed`; on a capture tick hide the helper, render the
virtual camera, restore the helper; always render the main camera;
finally increment `tick`.  Returns the new state and the render events
in execution order. -/
noncomputable def animateStep (st : LoopState) (dt t : ℝ) :
    LoopState × List RenderEvent :=
  let capture := shouldCaptureVirtual st.tick
  let mech := (st.mech.update dt).setPanSpeed (commandedPanSpeed t)
  let vis := if capture then true else st.helperVisible
  let evs := (if capture then [RenderEvent.renderVirtual false] else []) ++
    [RenderEvent.renderMain vis]
  (⟨mech, vis, st.tick + 1⟩, evs)

/-- The loop state after `n` animate iterations, where `dts k` and
`ts k` are the delta and elapsed clock times observed at iteration `k`. -/
noncomputable def runLoop (dts ts : ℕ → ℝ) : ℕ → LoopState
  | 0 => initLoop
  | n + 1 => (animateStep (runLoop dts ts n) (dts n) (ts n)).1

/-- `PanTiltMechanism`'s constructor viewed as fallible construction
from a window size `(width, height)`: it computes the camera aspect
ratio `width / height` and initialises the state.  The body contains no
validation of the size whatsoever, so construction always succeeds. -/
noncomputable def mkPanTiltMechanism (camSize : ℤ × ℤ) :
    Except String (ℝ × MechState) :=
  Except.ok ((camSize.1 : ℝ) / (camSize.2 : ℝ), initMech)

/-! ### Helper lemmas -/

theorem stdClamp_of_mem {v lo hi : ℝ} (h1 : lo ≤ v) (h2 : v ≤ hi) :
    stdClamp v lo hi = v := by
  unfold stdClamp
  rw [if_neg (not_lt.2 h1), if_neg (not_lt.2 h2)]

theorem stdClamp_of_hi_lt {v lo hi : ℝ} (hlo : lo ≤ hi) (h : hi < v) :
    stdClamp v lo hi = hi := by
  unfold stdClamp
  rw [if_neg (not_lt.2 (hlo.trans h.le)), if_pos h]

theorem stdClamp_of_lt_lo {v lo hi : ℝ} (h : v < lo) :
    stdClamp v lo hi = lo := by
  unfold stdClamp
  rw [if_pos h]

theorem stdClamp_zero_speed : stdClamp 0 (-maxSpeed) maxSpeed = 0 :=
  stdClamp_of_mem (by norm_num [maxSpeed]) (by norm_num [maxSpeed])

theorem commandedPanSpeed_zero : commandedPanSpeed 0 = π ^ 2 / 20 := by
  unfold commandedPanSpeed rawSpeed degToRad TWO_PI amplitude frequency
  rw [mul_zero, Real.cos_zero, mul_one]
  ring_nf

theorem pi_sq_gt : (9.8696 : ℝ) < π ^ 2 := by
  nlinarith [Real.pi_gt_d6, Real.pi_pos]

theorem pi_sq_lt : π ^ 2 < (9.86961 : ℝ) := by
  nlinarith [Real.pi_lt_d6, Real.pi_pos]

theorem clamp_commandedPanSpeed_zero :
    stdClamp (commandedPanSpeed 0) (-maxSpeed) maxSpeed = π ^ 2 / 20 := by
  rw [commandedPanSpeed_zero]
  refine stdClamp_of_mem ?_ ?_
  · unfold maxSpeed
    linarith [sq_nonneg π]
  · unfold maxSpeed
    linarith [pi_sq_lt]

theorem updateN_spec (st : MechState) (dt : ℝ) (N : ℕ) :
    (updateN st dt N).panAngle =
      st.panAngle + stdClamp st.panSpeed (-maxSpeed) maxSpeed * dt * N ∧
    (updateN st dt N).panSpeed = st.panSpeed := by
  induction N with
  | zero => simp [updateN]
  | succ n ih =>
    obtain ⟨ha, hs⟩ := ih
    refine ⟨?_, hs⟩
    show (updateN st dt n).panAngle +
        stdClamp (updateN st dt n).panSpeed (-maxSpeed) maxSpeed * dt =
        st.panAngle + stdClamp st.panSpeed (-maxSpeed) maxSpeed * dt * (n + 1 : ℕ)
    rw [ha, hs]
    push_cast
    ring

/-! ### Claim theorems -/

/-- Claim C1: for every `dt > 0` and every stored speed, one `update(dt)`
call changes each axis's accumulated angle by exactly
`clamp(s, -maxSpeed, maxSpeed) * dt` and changes nothing else: the other
fields (the stored speeds) are untouched. -/
theorem update_integrates_clamped (st : MechState) (dt : ℝ) (hdt : 0 < dt) :
    (st.update dt).panAngle =
      st.panAngle + stdClamp st.panSpeed (-maxSpeed) maxSpeed * dt ∧
    (st.update dt).tiltAngle =
      st.tiltAngle + stdClamp st.tiltSpeed (-maxSpeed) maxSpeed * dt ∧
    (st.update dt).panSpeed = st.panSpeed ∧
    (st.update dt).tiltSpeed = st.tiltSpeed :=
  ⟨rfl, rfl, rfl, rfl⟩

/-- Witness for C1 at the concrete state `initMech` and `dt = 1`. -/
theorem update_integrates_clamped_witness :
    (0 : ℝ) < 1 ∧
    ((initMech.update 1).panAngle =
      initMech.panAngle + stdClamp initMech.panSpeed (-maxSpeed) maxSpeed * 1 ∧
    (initMech.update 1).tiltAngle =
      initMech.tiltAngle + stdClamp initMech.tiltSpeed (-maxSpeed) maxSpeed * 1 ∧
    (initMech.update 1).panSpeed = initMech.panSpeed ∧
    (initMech.update 1).tiltSpeed = initMech.tiltSpeed) :=
  ⟨by norm_num, update_integrates_clamped initMech 1 (by norm_num)⟩

/-- Claim C2: after `setPanSpeed(s)` with `|s| > maxSpeed` followed by `N`
calls to `update(dt)`, the total pan-angle change is
`(sign s) * maxSpeed * dt * N`, not `s * dt * N`; the stored speed stays
the raw `s` throughout (clamping happens at every integration step, never
at set time). -/
theorem setPanSpeed_clamped_every_tick (st : MechState) (s dt : ℝ) (N : ℕ)
    (hs : maxSpeed < |s|) (hdt : 0 < dt) :
    (updateN (st.setPanSpeed s) dt N).panAngle =
      st.panAngle + (if 0 < s then maxSpeed else -maxSpeed) * dt * N ∧
    (updateN (st.setPanSpeed s) dt N).panSpeed = s := by
  obtain ⟨ha, hsp⟩ := updateN_spec (st.setPanSpeed s) dt N
  have hclamp : stdClamp s (-maxSpeed) maxSpeed =
      if 0 < s then maxSpeed else -maxSpeed := by
    rcases lt_or_le 0 s with h | h
    · rw [if_pos h]
      have hgt : maxSpeed < s := by rwa [abs_of_pos h] at hs
      exact stdClamp_of_hi_lt (by norm_num [maxSpeed]) hgt
    · rw [if_neg (not_lt.2 h)]
      have hlt : s < -maxSpeed := by
        rw [abs_of_nonpos h] at hs
        linarith
      exact stdClamp_of_lt_lo hlt
  refine ⟨?_, hsp⟩
  rw [ha]
  show st.panAngle + stdClamp s (-maxSpeed) maxSpeed * dt * N =
    st.panAngle + (if 0 < s then maxSpeed else -maxSpeed) * dt * N
  rw [hclamp]

/-- Witness for C2 at `s = 1 > maxSpeed`, `dt = 1`, `N = 2`. -/
theorem setPanSpeed_clamped_every_tick_witness :
    maxSpeed < |(1 : ℝ)| ∧ (0 : ℝ) < 1 ∧
    ((updateN (initMech.setPanSpeed 1) 1 2).panAngle =
      initMech.panAngle + (if (0 : ℝ) < 1 then maxSpeed else -maxSpeed) * 1 * (2 : ℕ) ∧
    (updateN (initMech.setPanSpeed 1) 1 2).panSpeed = 1) :=
  ⟨by rw [abs_one]; norm_num [maxSpeed], by norm_num,
    setPanSpeed_clamped_every_tick initMech 1 1 2
      (by rw [abs_one]; norm_num [maxSpeed]) (by norm_num)⟩

/-- Claim C3 counterexample: at the first animate iteration (tick 0,
elapsed time 0, `dt = 1`) the pan angle is unchanged (`0`), even though
the speed commanded for that tick is nonzero after clamping — so the
integration step did NOT use the speed computed in the same tick: the
source calls `update(dt)` before `setPanSpeed`. -/
theorem animate_speed_ordering_cex :
    (animateStep initLoop 1 0).1.mech.panAngle = 0 ∧
    stdClamp (commandedPanSpeed 0) (-maxSpeed) maxSpeed * 1 ≠ 0 := by
  constructor
  · show (0 : ℝ) + stdClamp 0 (-maxSpeed) maxSpeed * 1 = 0
    rw [stdClamp_zero_speed]
    ring
  · rw [clamp_commandedPanSpeed_zero, mul_one]
    have := pi_sq_gt
    positivity

/-- Claim C3 amended: in every animate iteration, `update(dt)` is called
BEFORE the commanded pan speed for the current elapsed time is computed
and applied via `setPanSpeed`; hence the integration step of a tick uses
the speed stored at the end of the previous tick, and the speed computed
in the current tick is only stored for the next one. -/
theorem animate_updates_with_previous_speed (st : LoopState) (dt t : ℝ) :
    (animateStep st dt t).1.mech.panAngle =
      st.mech.panAngle + stdClamp st.mech.panSpeed (-maxSpeed) maxSpeed * dt ∧
    (animateStep st dt t).1.mech.panSpeed = commandedPanSpeed t :=
  ⟨rfl, rfl⟩

theorem countP_shouldCapture (N : ℕ) :
    (List.range N).countP shouldCaptureVirtual = (N + 1) / 2 := by
  induction N with
  | zero => rfl
  | succ n ih =>
    rw [List.range_succ, List.countP_append, ih]
    by_cases h : n % 2 = 0
    · simp only [List.countP_cons, List.countP_nil, shouldCaptureVirtual, h]
      norm_num
      omega
    · simp only [List.countP_cons, List.countP_nil, shouldCaptureVirtual]
      rw [if_neg (by simpa using h)]
      omega

theorem runLoop_tick (dts ts : ℕ → ℝ) (n : ℕ) :
    (runLoop dts ts n).tick = n := by
  induction n with
  | zero => rfl
  | succ n ih =>
    show (runLoop dts ts n).tick + 1 = n + 1
    rw [ih]

/-- Claim C4: the capture decision at tick `n` is true exactly when
`n % 2 = 0`; over `N` consecutive ticks starting at tick 0 exactly
`⌈N/2⌉ = (N+1)/2` ticks capture; the loop's tick counter at iteration
`n` is `n`; and every iteration emits a main-camera render regardless of
parity. -/
theorem capture_schedule (n N : ℕ) (dts ts : ℕ → ℝ) :
    (shouldCaptureVirtual n = true ↔ n % 2 = 0) ∧
    (List.range N).countP shouldCaptureVirtual = (N + 1) / 2 ∧
    (runLoop dts ts n).tick = n ∧
    ∃ b, RenderEvent.renderMain b ∈
      (animateStep (runLoop dts ts n) (dts n) (ts n)).2 := by
  refine ⟨by simp [shouldCaptureVirtual], countP_shouldCapture N,
    runLoop_tick dts ts n, ?_⟩
  refine ⟨if shouldCaptureVirtual (runLoop dts ts n).tick then true
    else (runLoop dts ts n).helperVisible, ?_⟩
  show RenderEvent.renderMain _ ∈
    (if shouldCaptureVirtual (runLoop dts ts n).tick
      then [RenderEvent.renderVirtual false] else []) ++
    [RenderEvent.renderMain _]
  exact List.mem_append_right _ (List.mem_singleton_self _)

/-- Claim C5: the frame transcoding (row reversal) is involutive on every
non-empty buffer, and a single application performs no per-pixel
transformation: every row of the output is (unchanged) a row of the
input. -/
theorem transcode_involutive (frame : List (List Pixel)) (h : frame ≠ []) :
    transcodeFrame (transcodeFrame frame) = frame ∧
    ∀ row ∈ transcodeFrame frame, row ∈ frame := by
  refine ⟨List.reverse_reverse frame, ?_⟩
  intro row hr
  simpa [transcodeFrame] using hr

/-- Witness for C5 on a concrete two-row frame. -/
theorem transcode_involutive_witness :
    ([[(0, 0, 0)], [(1, 2, 3)]] : List (List Pixel)) ≠ [] ∧
    (transcodeFrame (transcodeFrame [[(0, 0, 0)], [(1, 2, 3)]]) =
        [[(0, 0, 0)], [(1, 2, 3)]] ∧
      ∀ row ∈ transcodeFrame [[(0, 0, 0)], [(1, 2, 3)]],
        row ∈ ([[(0, 0, 0)], [(1, 2, 3)]] : List (List Pixel))) :=
  ⟨by simp, transcode_involutive _ (by simp)⟩

/-- Claim C6: the speed profile is periodic with period `1/frequency`:
both the raw (degrees-per-second) speed and the radian speed handed to
`setPanSpeed` satisfy `speed (t + 1/frequency) = speed t` for all `t`. -/
theorem speed_profile_periodic (t : ℝ) :
    rawSpeed (t + 1 / frequency) = rawSpeed t ∧
    commandedPanSpeed (t + 1 / frequency) = commandedPanSpeed t := by
  have key : TWO_PI * frequency * (t + 1 / frequency) =
      TWO_PI * frequency * t + 2 * π := by
    unfold TWO_PI frequency
    have h : (0.05 : ℝ) ≠ 0 := by norm_num
    field_simp
    ring
  refine ⟨?_, ?_⟩
  · unfold rawSpeed
    rw [key, Real.cos_add_two_pi]
  · unfold commandedPanSpeed rawSpeed
    rw [key, Real.cos_add_two_pi]

/-- Claim C7 counterexample: after `setPanSpeed(commandedPanSpeed 0)` and
one `update(1/60)` from the initial state, the pan angle is exactly
`π² / 1200 ≈ 0.008225 rad`, which differs from the claimed value
`0.004112 rad` by more than `0.004` — the claimed angle is off by a
factor of two. -/
theorem first_tick_angle_cex :
    ((initMech.setPanSpeed (commandedPanSpeed 0)).update (1 / 60)).panAngle =
      π ^ 2 / 1200 ∧
    |π ^ 2 / 1200 - 0.004112| > 0.004 := by
  constructor
  · show (0 : ℝ) +
      stdClamp (commandedPanSpeed 0) (-maxSpeed) maxSpeed * (1 / 60) =
      π ^ 2 / 1200
    rw [clamp_commandedPanSpeed_zero]
    ring
  · have hpos : (0 : ℝ) < π ^ 2 / 1200 - 0.004112 := by
      linarith [pi_sq_gt]
    rw [abs_of_pos hpos]
    linarith [pi_sq_gt]

/-- Claim C7 amended: with the source constants (amplitude 90°,
frequency 0.05 Hz, maxSpeed 0.5 rad/s), at `t = 0` the raw commanded pan
speed is `9π ≈ 28.27 °/s`, i.e. `π²/20 ≈ 0.4934 rad/s`, below the
0.5 rad/s ceiling so the clamp leaves it unchanged, and one tick of
`dt = 1/60 s` from the initial state yields
`panAngle = π²/1200 ≈ 0.008225 rad` (an unclamped integration step). -/
theorem first_tick_angle :
    rawSpeed 0 = 9 * π ∧
    |9 * π - 28.27| < 0.01 ∧
    commandedPanSpeed 0 = π ^ 2 / 20 ∧
    |π ^ 2 / 20 - 0.4934| < 0.001 ∧
    π ^ 2 / 20 < maxSpeed ∧
    stdClamp (commandedPanSpeed 0) (-maxSpeed) maxSpeed = commandedPanSpeed 0 ∧
    ((initMech.setPanSpeed (commandedPanSpeed 0)).update (1 / 60)).panAngle =
      π ^ 2 / 1200 ∧
    |π ^ 2 / 1200 - 0.008225| < 0.00001 := by
  refine ⟨?_, ?_, commandedPanSpeed_zero, ?_, ?_, ?_, ?_, ?_⟩
  · unfold rawSpeed TWO_PI amplitude frequency
    rw [mul_zero, Real.cos_zero, mul_one]
    ring_nf
  · rw [abs_lt]
    constructor <;> linarith [Real.pi_gt_d6, Real.pi_lt_d6]
  · rw [abs_lt]
    constructor <;> linarith [pi_sq_gt, pi_sq_lt]
  · unfold maxSpeed
    linarith [pi_sq_lt]
  · rw [clamp_commandedPanSpeed_zero, commandedPanSpeed_zero]
  · show (0 : ℝ) +
      stdClamp (commandedPanSpeed 0) (-maxSpeed) maxSpeed * (1 / 60) =
      π ^ 2 / 1200
    rw [clamp_commandedPanSpeed_zero]
    ring
  · rw [abs_lt]
    constructor <;> linarith [pi_sq_gt, pi_sq_lt]

/-- Claim C8: the constructor of `PanTiltMechanism` performs no
validation of the configured resolution: constructing with the window
size `(0, 640)` (zero width) succeeds and merely stores the aspect ratio
`0 / 640 = 0`; nothing fails at construction time. -/
theorem construction_accepts_zero_size :
    mkPanTiltMechanism (0, 640) = Except.ok ((0 : ℝ), initMech) := by
  unfold mkPanTiltMechanism
  norm_num

theorem runLoop_helperVisible (dts ts : ℕ → ℝ) (n : ℕ) :
    (runLoop dts ts n).helperVisible = true := by
  induction n with
  | zero => rfl
  | succ n ih =>
    show (if shouldCaptureVirtual (runLoop dts ts n).tick then true
      else (runLoop dts ts n).helperVisible) = true
    rw [ih]
    exact ite_self true

/-- Claim C9: on every capture tick the frustum helper is hidden for the
virtual-camera render and restored right after it, and on every tick
(capture or not) the main-camera render happens with the helper visible
and the tick ends with the helper visible. -/
theorem frustum_hidden_only_for_virtual (dts ts : ℕ → ℝ) (n : ℕ) :
    (animateStep (runLoop dts ts n) (dts n) (ts n)).2 =
      (if shouldCaptureVirtual n then
        [RenderEvent.renderVirtual false, RenderEvent.renderMain true]
      else [RenderEvent.renderMain true]) ∧
    (animateStep (runLoop dts ts n) (dts n) (ts n)).1.helperVisible = true := by
  have ht := runLoop_tick dts ts n
  have hv := runLoop_helperVisible dts ts n
  constructor
  · show ((if shouldCaptureVirtual (runLoop dts ts n).tick
        then [RenderEvent.renderVirtual false] else []) ++
      [RenderEvent.renderMain
        (if shouldCaptureVirtual (runLoop dts ts n).tick then true
          else (runLoop dts ts n).helperVisible)]) = _
    rw [ht, hv, ite_self]
    by_cases h : shouldCaptureVirtual n = true
    · rw [if_pos h, if_pos h]
      rfl
    · rw [if_neg h, if_neg h]
      rfl
  · show (if shouldCaptureVirtual (runLoop dts ts n).tick then true
      else (runLoop dts ts n).helperVisible) = true
    rw [ht, hv]
    exact ite_self true

/-- Claim C10: the animate loop never calls `setTiltSpeed` and the
stored tilt speed starts at `0`, so after any number of iterations the
tilt speed is still `0` and the tilt angle still has its initial value. -/
theorem tilt_never_moves (dts ts : ℕ → ℝ) (n : ℕ) :
    (runLoop dts ts n).mech.tiltAngle = initMech.tiltAngle ∧
    (runLoop dts ts n).mech.tiltSpeed = 0 := by
  induction n with
  | zero => exact ⟨rfl, rfl⟩
  | succ n ih =>
    obtain ⟨ha, hs⟩ := ih
    refine ⟨?_, hs⟩
    show (runLoop dts ts n).mech.tiltAngle +
      stdClamp (runLoop dts ts n).mech.tiltSpeed (-maxSpeed) maxSpeed *
        dts n = initMech.tiltAngle
    rw [ha, hs, stdClamp_zero_speed]
    ring

end ServoControl
